import Mathlib

/-!
Verification of the responsive-breakpoint tracker described by the
KResponsiveWindow documentation page (`src/docs/pages/kresponsivewindow.vue`).
The tracker itself (`lib/KResponsiveWindowMixin.js`, `lib/useKResponsiveWindow`)
is not part of the given sources, so its data model and operations are modelled
from the specification; the documentation page's own component (`boxStyle`,
`composableBoxStyle`) is embedded directly from the source.
-/

namespace KResponsive

/-- Modelled from the spec: the threshold table is an externally supplied,
load-time constant: an ordered table of ascending pixel boundaries
`t0 < t1 < ... < t6` (7 boundaries). The missing artifact is the configuration
of `lib/KResponsiveWindowMixin.js` / `lib/useKResponsiveWindow`. -/
def defaultThresholds : List Nat := [320, 600, 960, 1280, 1440, 1600, 1920]

/-- Modelled from the spec: a list of numbers is strictly ascending. -/
def strictlyAscending : List Nat → Bool
  | [] => true
  | [_] => true
  | a :: b :: rest => (a < b) && strictlyAscending (b :: rest)

/-- Modelled from the spec: a threshold table is valid when it supplies the 7
boundaries `t0..t6` and they are strictly ascending. -/
def validConfig (ts : List Nat) : Bool :=
  (ts.length == 7) && strictlyAscending ts

/-- Modelled from the spec: the breakpoint level,
`windowBreakpoint` — an integer in `[0, 7]` derived deterministically from the
width: level `L` holds when `tL-1 ≤ width < tL` (level 0 for width below `t0`,
level 7 for width ≥ `t6`).  Realized as the number of thresholds that are
`≤ width`. -/
def level (ts : List Nat) (w : Nat) : Nat :=
  match ts with
  | [] => 0
  | t :: rest => (if t ≤ w then 1 else 0) + level rest w

/-- Modelled from the spec: the lower pixel boundary of the medium band
(small/medium boundary, `600` in the default table). -/
def smallBound (ts : List Nat) : Nat := ts.getD 1 0

/-- Modelled from the spec: the lower pixel boundary of the large band
(medium/large boundary, `1280` in the default table). -/
def largeBound (ts : List Nat) : Nat := ts.getD 3 0

/-- Modelled from the spec: `windowIsSmall` — the width is below the
small/medium band boundary. -/
def isSmall (ts : List Nat) (w : Nat) : Bool :=
  decide (w < smallBound ts)

/-- Modelled from the spec: `windowIsMedium` — the width is at or above the
small/medium boundary and below the medium/large boundary. -/
def isMedium (ts : List Nat) (w : Nat) : Bool :=
  decide (smallBound ts ≤ w) && decide (w < largeBound ts)

/-- Modelled from the spec: `windowIsLarge` — the width is at or above the
medium/large band boundary. -/
def isLarge (ts : List Nat) (w : Nat) : Bool :=
  decide (largeBound ts ≤ w)

theorem validConfig_cases (ts : List Nat) (h : validConfig ts = true) :
    ∃ a b c d e f g, ts = [a, b, c, d, e, f, g] ∧
      a < b ∧ b < c ∧ c < d ∧ d < e ∧ e < f ∧ f < g := by
  rcases ts with _ | ⟨a, _ | ⟨b, _ | ⟨c, _ | ⟨d, _ | ⟨e, _ | ⟨f, _ | ⟨g, _ | ⟨x, rest⟩⟩⟩⟩⟩⟩⟩⟩ <;>
    simp [validConfig, strictlyAscending] at h
  exact ⟨a, b, c, d, e, f, g, rfl, h.1, h.2.1, h.2.2.1, h.2.2.2.1, h.2.2.2.2.1, h.2.2.2.2.2⟩

theorem level_le_length (ts : List Nat) (w : Nat) : level ts w ≤ ts.length := by
  induction ts with
  | nil => simp [level]
  | cons t rest ih =>
    simp only [level, List.length_cons]
    split <;> omega

theorem level_mono (ts : List Nat) {w1 w2 : Nat} (h : w1 ≤ w2) :
    level ts w1 ≤ level ts w2 := by
  induction ts with
  | nil => simp [level]
  | cons t rest ih =>
    simp only [level]
    split <;> split <;> omega

/-- Modelled from the spec: `ViewportState` — raw pixel dimensions of the
observed viewport at last sample time. -/
structure ViewportState where
  width : Nat
  height : Nat
deriving DecidableEq

/-- Modelled from the spec: the breakpoint tracker core — the single source of
truth for viewport dimensions and derived breakpoint state: the threshold
configuration, the stored `ViewportState`, the set of live subscribers (as
disposer ids), the id for the next subscription, whether the resize listener
is currently attached, and counters of the attach/detach events performed on
the observation source. -/
structure Tracker where
  cfg : List Nat
  viewport : ViewportState
  subs : List Nat
  nextId : Nat
  attached : Bool
  attachCount : Nat
  detachCount : Nat
deriving DecidableEq

/-- Modelled from the spec: configuration errors raised at initialization. -/
inductive ConfigError where
  | invalidThresholds
deriving DecidableEq

/-- Modelled from the spec: initialization fails fast with a configuration
error when the threshold table is not a strictly ascending table of 7
boundaries; otherwise it constructs the tracker (detached, no subscribers)
with the given initial viewport sample. -/
def initTracker (ts : List Nat) (w h : Nat) : Except ConfigError Tracker :=
  if validConfig ts then
    Except.ok
      { cfg := ts
        viewport := ⟨w, h⟩
        subs := []
        nextId := 0
        attached := false
        attachCount := 0
        detachCount := 0 }
  else
    Except.error ConfigError.invalidThresholds

/-- Modelled from the spec: `subscribe` registers a subscriber and returns its
disposer id; on the very first subscription (no live subscribers) the tracker
attaches the resize listener. -/
def subscribe (t : Tracker) : Tracker × Nat :=
  let id := t.nextId
  if t.subs.isEmpty then
    ({ t with
        subs := t.subs ++ [id]
        nextId := id + 1
        attached := true
        attachCount := t.attachCount + 1 }, id)
  else
    ({ t with subs := t.subs ++ [id], nextId := id + 1 }, id)

/-- Modelled from the spec: the disposer — removes the subscriber if it is
still registered; when the last remaining subscription is removed the tracker
detaches the resize listener; calling the same disposer again is a no-op. -/
def unsubscribe (t : Tracker) (id : Nat) : Tracker :=
  if t.subs.contains id then
    let subs' := t.subs.erase id
    if subs'.isEmpty then
      { t with
          subs := subs'
          attached := false
          detachCount := t.detachCount + 1 }
    else
      { t with subs := subs' }
  else
    t

/-- Modelled from the spec: on each (debounced) resize notification the
tracker reads the current dimensions and compares them with the stored
`ViewportState`; if either dimension differs it updates state and invokes
every registered subscriber (returned as the list of notified subscriber
ids); if dimensions are unchanged, state is left unchanged and nobody is
notified. -/
def handleResize (t : Tracker) (w h : Nat) : Tracker × List Nat :=
  if t.viewport = ⟨w, h⟩ then
    (t, [])
  else
    ({ t with viewport := ⟨w, h⟩ }, t.subs)

/-- Modelled from the spec: trailing-edge debounce — all resize notifications
arriving within one throttle window are coalesced and the handler runs at
most once, at the end of the window, with the last sample of the burst. -/
def processWindow (t : Tracker) (burst : List ViewportState) : Tracker × List Nat :=
  match burst.getLast? with
  | none => (t, [])
  | some v => handleResize t v.width v.height

/-- An abstract operation on the tracker: a subscription, or a call of the
disposer with the given id. -/
inductive Op where
  | sub : Op
  | unsub : Nat → Op
deriving DecidableEq

/-- Run a sequence of subscribe/unsubscribe operations on the tracker. -/
def run (t : Tracker) : List Op → Tracker
  | [] => t
  | Op.sub :: rest => run (subscribe t).1 rest
  | Op.unsub id :: rest => run (unsubscribe t id) rest

/-- The disposer ids handed out by `n` consecutive subscriptions starting at
id `start`. -/
def idsFrom (start : Nat) : Nat → List Nat
  | 0 => []
  | n + 1 => start :: idsFrom (start + 1) n

/-- The named reactive values exposed by both adapter surfaces:
`windowWidth`, `windowHeight`, `windowBreakpoint`,
`windowIsSmall` / `windowIsMedium` / `windowIsLarge`. -/
structure AdapterView where
  windowWidth : Nat
  windowHeight : Nat
  windowBreakpoint : Nat
  windowIsSmall : Bool
  windowIsMedium : Bool
  windowIsLarge : Bool
deriving DecidableEq

/-- Modelled from the spec: `getSnapshot` — the synchronous read of the
tracker's current state: the stored dimensions together with the level and
band derived from the stored width via the threshold table. -/
def snapshotView (t : Tracker) : AdapterView :=
  { windowWidth := t.viewport.width
    windowHeight := t.viewport.height
    windowBreakpoint := level t.cfg t.viewport.width
    windowIsSmall := isSmall t.cfg t.viewport.width
    windowIsMedium := isMedium t.cfg t.viewport.width
    windowIsLarge := isLarge t.cfg t.viewport.width }

/-- Modelled from the spec: the pull-based accessor adapter
(`useKResponsiveWindow`) — its reactive bundle reads straight off the shared
tracker state, with no copy of its own. -/
def composableRead (t : Tracker) : AdapterView :=
  snapshotView t

/-- Modelled from the spec: one throttle window as observed by the
stateful-attachment adapter (`KResponsiveWindowMixin`): the tracker processes
the window's burst; when the adapter's subscription is notified it stores the
new tuple onto the component's reactive state, otherwise its stored fields
are left as they are. -/
def mixinStep (tm : Tracker × AdapterView) (burst : List ViewportState) :
    Tracker × AdapterView :=
  if (processWindow tm.1 burst).2.isEmpty then
    ((processWindow tm.1 burst).1, tm.2)
  else
    ((processWindow tm.1 burst).1, snapshotView (processWindow tm.1 burst).1)

/-- Run the tracker together with the stateful-attachment adapter over a
trace of throttle windows. -/
def mixinRun (tm : Tracker × AdapterView) : List (List ViewportState) → Tracker × AdapterView
  | [] => tm
  | burst :: rest => mixinRun (mixinStep tm burst) rest

/-- A CSS style object of the shape used by the documentation page's
component: a single `display` property. -/
structure BoxStyleObj where
  display : String
deriving DecidableEq

/-- From `src/docs/pages/kresponsivewindow.vue`, computed `boxStyle`:
`if (this.windowIsLarge) return { display: 'inline-block' }; return
{ display: 'block' }` (the mixin-based example). -/
def boxStyle (windowIsLarge : Bool) : BoxStyleObj :=
  if windowIsLarge then { display := "inline-block" } else { display := "block" }

/-- From `src/docs/pages/kresponsivewindow.vue`, `composableBoxStyle`:
`computed(() => ({ display: composableWindowIsLarge.value ? 'inline-block'
: 'block' }))` (the composable-based example). -/
def composableBoxStyle (composableWindowIsLarge : Bool) : BoxStyleObj :=
  { display := if composableWindowIsLarge then "inline-block" else "block" }

/-- The tracker's listener-attachment invariant: the resize listener is
attached exactly when there is a live subscriber, and the attach events
performed on the observation source exceed the detach events by one exactly
while attached — so at most one listener is ever attached at a time. -/
def ListenerInv (t : Tracker) : Prop :=
  t.attached = !t.subs.isEmpty ∧
    t.attachCount = t.detachCount + (if t.attached = true then 1 else 0)

/-- A concrete tracker: freshly initialized with the default threshold table
at a 1024×768 viewport, nobody subscribed yet. -/
def tracker0 : Tracker :=
  { cfg := defaultThresholds
    viewport := ⟨1024, 768⟩
    subs := []
    nextId := 0
    attached := false
    attachCount := 0
    detachCount := 0 }

/-- A concrete tracker: `tracker0` after one subscription. -/
def tracker1 : Tracker :=
  (subscribe tracker0).1

/-- A concrete burst of 10 resize notifications within one throttle window,
settling at width 800. -/
def burst10 : List ViewportState :=
  [⟨1000, 700⟩, ⟨990, 700⟩, ⟨980, 700⟩, ⟨970, 700⟩, ⟨960, 700⟩,
   ⟨950, 700⟩, ⟨940, 700⟩, ⟨930, 700⟩, ⟨900, 650⟩, ⟨800, 600⟩]

theorem subscribe_of_nonempty (t : Tracker) (h : t.subs ≠ []) :
    (subscribe t).1 = { t with subs := t.subs ++ [t.nextId], nextId := t.nextId + 1 } := by
  simp [subscribe, List.isEmpty_iff, h]

theorem run_replicate_sub_of_nonempty (k : Nat) :
    ∀ t : Tracker, t.subs ≠ [] →
      run t (List.replicate k Op.sub) =
        { t with subs := t.subs ++ idsFrom t.nextId k, nextId := t.nextId + k } := by
  induction k with
  | zero => intro t h; simp [run, idsFrom]
  | succ k ih =>
    intro t h
    rw [List.replicate_succ]
    show run (subscribe t).1 (List.replicate k Op.sub) = _
    rw [subscribe_of_nonempty t h]
    rw [ih _ (by simp [h])]
    obtain ⟨cfg, vp, subs, nid, att, ac, dc⟩ := t
    simp [idsFrom]
    omega

theorem run_replicate_sub_of_empty (t : Tracker) (n : Nat) (hs : t.subs = [])
    (hn : 1 ≤ n) :
    run t (List.replicate n Op.sub) =
      { t with
          subs := idsFrom t.nextId n
          nextId := t.nextId + n
          attached := true
          attachCount := t.attachCount + 1 } := by
  obtain ⟨n, rfl⟩ : ∃ m, n = m + 1 := ⟨n - 1, by omega⟩
  rw [List.replicate_succ]
  show run (subscribe t).1 (List.replicate n Op.sub) = _
  have hsub : (subscribe t).1 =
      { t with
          subs := [t.nextId]
          nextId := t.nextId + 1
          attached := true
          attachCount := t.attachCount + 1 } := by
    simp [subscribe, hs]
  rw [hsub, run_replicate_sub_of_nonempty n _ (by simp)]
  obtain ⟨cfg, vp, subs, nid, att, ac, dc⟩ := t
  simp [idsFrom]
  omega

theorem unsubscribe_of_not_mem (t : Tracker) (id : Nat) (h : id ∉ t.subs) :
    unsubscribe t id = t := by
  simp [unsubscribe, h]

theorem run_unsub_perm (perm : List Nat) :
    ∀ t : Tracker, perm.Perm t.subs → t.subs ≠ [] →
      run t (perm.map Op.unsub) =
        { t with subs := [], attached := false, detachCount := t.detachCount + 1 } := by
  induction perm with
  | nil =>
    intro t hp hne
    exact absurd hp.symm.eq_nil hne
  | cons a rest ih =>
    intro t hp hne
    have hmem : a ∈ t.subs ∧ rest.Perm (t.subs.erase a) :=
      (List.cons_perm_iff_perm_erase).mp hp
    show run (unsubscribe t a) (rest.map Op.unsub) = _
    have hc : t.subs.contains a = true := List.elem_eq_true_of_mem hmem.1
    by_cases he : t.subs.erase a = []
    · have hrest : rest = [] := (hmem.2.trans (by rw [he])).eq_nil
      subst hrest
      simp only [List.map_nil, run, unsubscribe, hc, if_true, he]
      simp
    · have hstep : unsubscribe t a = { t with subs := t.subs.erase a } := by
        simp only [unsubscribe, hc, if_true]
        rw [if_neg (by simpa [List.isEmpty_iff] using he)]
      rw [hstep, ih _ (by simpa using hmem.2) (by simpa using he)]

theorem handleResize_fields (t : Tracker) (w h : Nat) :
    (handleResize t w h).1.subs = t.subs ∧ (handleResize t w h).1.cfg = t.cfg ∧
      (handleResize t w h).1.attached = t.attached ∧
      (handleResize t w h).1.attachCount = t.attachCount ∧
      (handleResize t w h).1.detachCount = t.detachCount := by
  unfold handleResize
  split <;> simp

theorem processWindow_fields (t : Tracker) (burst : List ViewportState) :
    (processWindow t burst).1.subs = t.subs ∧ (processWindow t burst).1.cfg = t.cfg := by
  unfold processWindow
  rcases burst.getLast? with _ | v
  · simp
  · exact ⟨(handleResize_fields t v.width v.height).1,
      (handleResize_fields t v.width v.height).2.1⟩

theorem processWindow_quiet (t : Tracker) (burst : List ViewportState)
    (hs : t.subs ≠ []) (hq : (processWindow t burst).2 = []) :
    (processWindow t burst).1 = t := by
  unfold processWindow at hq ⊢
  rcases hl : burst.getLast? with _ | v
  · rfl
  · rw [hl] at hq
    change (handleResize t v.width v.height).2 = [] at hq
    show (handleResize t v.width v.height).1 = t
    unfold handleResize at hq ⊢
    by_cases hv : t.viewport = ⟨v.width, v.height⟩
    · simp [hv]
    · rw [if_neg hv] at hq
      exact absurd hq hs

theorem run_append (ops1 ops2 : List Op) :
    ∀ t : Tracker, run t (ops1 ++ ops2) = run (run t ops1) ops2 := by
  induction ops1 with
  | nil => intro t; rfl
  | cons op rest ih =>
    intro t
    cases op with
    | sub => exact ih (subscribe t).1
    | unsub id => exact ih (unsubscribe t id)

theorem idsFrom_ne_nil (s n : Nat) (h : 1 ≤ n) : idsFrom s n ≠ [] := by
  cases n with
  | zero => omega
  | succ m => simp [idsFrom]

theorem listenerInv_subscribe (t : Tracker) (h : ListenerInv t) :
    ListenerInv (subscribe t).1 := by
  obtain ⟨cfg, vp, subs, nid, att, ac, dc⟩ := t
  obtain ⟨h1, h2⟩ := h
  simp only at h1 h2
  rcases subs with _ | ⟨s, rest⟩
  · simp only [List.isEmpty_nil, Bool.not_true] at h1
    subst h1
    simp only [if_neg Bool.false_ne_true, Nat.add_zero] at h2
    subst h2
    constructor <;> simp [subscribe, ListenerInv]
  · simp only [List.isEmpty_cons, Bool.not_false] at h1
    subst h1
    simp only [if_pos rfl] at h2
    constructor <;> simp [subscribe, ListenerInv, h2]

theorem listenerInv_unsubscribe (t : Tracker) (id : Nat) (h : ListenerInv t) :
    ListenerInv (unsubscribe t id) := by
  obtain ⟨h1, h2⟩ := h
  by_cases hc : t.subs.contains id
  · have hne : t.subs ≠ [] := by
      intro hnil
      rw [hnil] at hc
      simp at hc
    have hatt : t.attached = true := by
      rw [h1]
      simp [List.isEmpty_iff, hne]
    rw [hatt, if_pos rfl] at h2
    by_cases he : (t.subs.erase id).isEmpty
    · have hstep : unsubscribe t id =
          { t with
              subs := t.subs.erase id
              attached := false
              detachCount := t.detachCount + 1 } := by
        simp only [unsubscribe, hc, if_true]
        rw [if_pos he]
      rw [hstep]
      refine ⟨?_, ?_⟩
      · simp only
        rw [he]
        rfl
      · simp only
        rw [if_neg Bool.false_ne_true]
        omega
    · have hstep : unsubscribe t id = { t with subs := t.subs.erase id } := by
        simp only [unsubscribe, hc, if_true]
        rw [if_neg he]
      rw [hstep]
      refine ⟨?_, ?_⟩
      · simp only
        rw [hatt]
        rw [Bool.not_eq_true] at he
        rw [he]
        rfl
      · simp only
        rw [hatt, if_pos rfl]
        omega
  · rw [unsubscribe_of_not_mem t id (fun hm => hc (List.elem_eq_true_of_mem hm))]
    exact ⟨h1, h2⟩

theorem listenerInv_run (ops : List Op) :
    ∀ t : Tracker, ListenerInv t → ListenerInv (run t ops) := by
  induction ops with
  | nil => exact fun t h => h
  | cons op rest ih =>
    intro t h
    cases op with
    | sub => exact ih _ (listenerInv_subscribe t h)
    | unsub id => exact ih _ (listenerInv_unsubscribe t id h)

theorem mixinRun_agrees (trace : List (List ViewportState)) :
    ∀ t : Tracker, t.subs ≠ [] →
      (mixinRun (t, composableRead t) trace).2 =
        composableRead (mixinRun (t, composableRead t) trace).1 := by
  induction trace with
  | nil => intro t _; rfl
  | cons burst rest ih =>
    intro t hs
    show (mixinRun (mixinStep (t, composableRead t) burst) rest).2 =
      composableRead (mixinRun (mixinStep (t, composableRead t) burst) rest).1
    by_cases hq : (processWindow t burst).2 = []
    · have hstep : mixinStep (t, composableRead t) burst = (t, composableRead t) := by
        unfold mixinStep
        rw [if_pos (by simp [hq])]
        rw [processWindow_quiet t burst hs hq]
      rw [hstep]
      exact ih t hs
    · have hstep : mixinStep (t, composableRead t) burst =
          ((processWindow t burst).1, composableRead (processWindow t burst).1) := by
        unfold mixinStep
        rw [if_neg (by simp [List.isEmpty_iff, hq])]
        rfl
      rw [hstep]
      refine ih (processWindow t burst).1 ?_
      rw [(processWindow_fields t burst).1]
      exact hs

/-- C1: For every width w ≥ 0 (including w = 0), the breakpoint level
function is total — it classifies without raising an error — and returns the
integer in [0,7] determined by the threshold table: 0 when w < t0, 7 when
w ≥ t6, and otherwise the unique L with tL-1 ≤ w < tL; in particular
level(0) = 0 (shown for the default threshold table, whose t0 = 320 > 0). -/
theorem claim_C1 (a b c d e f g w : Nat)
    (h : validConfig [a, b, c, d, e, f, g] = true) :
    (level [a, b, c, d, e, f, g] w ≤ 7 ∧
      (w < a → level [a, b, c, d, e, f, g] w = 0) ∧
      (g ≤ w → level [a, b, c, d, e, f, g] w = 7) ∧
      (a ≤ w ∧ w < b → level [a, b, c, d, e, f, g] w = 1) ∧
      (b ≤ w ∧ w < c → level [a, b, c, d, e, f, g] w = 2) ∧
      (c ≤ w ∧ w < d → level [a, b, c, d, e, f, g] w = 3) ∧
      (d ≤ w ∧ w < e → level [a, b, c, d, e, f, g] w = 4) ∧
      (e ≤ w ∧ w < f → level [a, b, c, d, e, f, g] w = 5) ∧
      (f ≤ w ∧ w < g → level [a, b, c, d, e, f, g] w = 6)) ∧
    level defaultThresholds 0 = 0 := by
  have hasc : a < b ∧ b < c ∧ c < d ∧ d < e ∧ e < f ∧ f < g := by
    simpa [validConfig, strictlyAscending] using h
  refine ⟨?_, by decide⟩
  obtain ⟨h1, h2, h3, h4, h5, h6⟩ := hasc
  simp only [level]
  split_ifs <;> omega

/-- C1 witness: with the default table, a width of 700 lies in the band
[600, 960) and is classified to level 2. -/
theorem claim_C1_witness :
    level [320, 600, 960, 1280, 1440, 1600, 1920] 700 = 2 :=
  (claim_C1 320 600 960 1280 1440 1600 1920 700 (by decide)).1.2.2.2.2.1
    ⟨by decide, by decide⟩

/-- C2 counterexample: with the table [320, 600, 960, 1280, 1440, 1600, 1920]
and the closed-lower-bound rule `tL-1 ≤ width < tL → level = L` of the data
model, width 959 does NOT classify to level 1 (959 lies in [t1, t2) =
[600, 960), which is level 2), and width 960 does not classify to level 2. -/
theorem claim_C2_counterexample :
    ¬(level defaultThresholds 959 = 1 ∧ level defaultThresholds 960 = 2) := by
  decide

/-- C2 (amended): With the threshold table [320, 600, 960, 1280, 1440, 1600,
1920] as configuration, the level function maps width 959 to level 2 and
width 960 to level 3 — a width exactly equal to a threshold belongs to the
higher level, per the closed-lower-bound rule. -/
theorem claim_C2 :
    level defaultThresholds 959 = 2 ∧ level defaultThresholds 960 = 3 := by
  decide

/-- C3: For every valid threshold table and every width w, exactly one of
isSmall(w), isMedium(w), isLarge(w) is true; band boundaries are closed on
their lower end: with the default table's band boundaries 600 and 1280,
width 600 yields isMedium = true and width 599 yields isSmall = true. -/
theorem claim_C3 (ts : List Nat) (w : Nat) (h : validConfig ts = true) :
    ((isSmall ts w).toNat + (isMedium ts w).toNat + (isLarge ts w).toNat = 1) ∧
    isMedium defaultThresholds 600 = true ∧
    isSmall defaultThresholds 599 = true := by
  obtain ⟨a, b, c, d, e, f, g, rfl, hab, hbc, hcd, hde, hef, hfg⟩ :=
    validConfig_cases ts h
  refine ⟨?_, by decide, by decide⟩
  have hsb : smallBound [a, b, c, d, e, f, g] = b := rfl
  have hlb : largeBound [a, b, c, d, e, f, g] = d := rfl
  by_cases hw1 : w < b
  · have hw2 : w < d := Nat.lt_trans hw1 (Nat.lt_trans hbc hcd)
    simp [isSmall, isMedium, isLarge, hsb, hlb, hw1, hw2, Nat.not_le.mpr hw1,
      Nat.not_le.mpr hw2]
  · by_cases hw2 : w < d
    · simp [isSmall, isMedium, isLarge, hsb, hlb, hw1, hw2,
        Nat.le_of_not_lt hw1, Nat.not_le.mpr hw2]
    · simp [isSmall, isMedium, isLarge, hsb, hlb, hw1, hw2,
        Nat.le_of_not_lt hw2]

/-- C3 witness: with the default table, width 700 lies in exactly one band
(the medium one). -/
theorem claim_C3_witness :
    (isSmall defaultThresholds 700).toNat + (isMedium defaultThresholds 700).toNat +
      (isLarge defaultThresholds 700).toNat = 1 :=
  (claim_C3 defaultThresholds 700 (by decide)).1

/-- C4: The level function is monotonic: for all widths w1 ≤ w2,
level(w1) ≤ level(w2) — a non-decreasing step function of width. -/
theorem claim_C4 (ts : List Nat) (w1 w2 : Nat) (h : w1 ≤ w2) :
    level ts w1 ≤ level ts w2 :=
  level_mono ts h

/-- C4 witness: with the default table, level 500 ≤ level 1000. -/
theorem claim_C4_witness :
    level defaultThresholds 500 ≤ level defaultThresholds 1000 :=
  claim_C4 defaultThresholds 500 1000 (by decide)

/-- C5 counterexample: interleaving the 2 subscribe calls with their 2
corresponding unsubscribe calls as sub, unsub 0, sub, unsub 1 detaches the
listener twice (the count reaches zero twice), not exactly once. -/
theorem claim_C5_counterexample :
    (run tracker0 [Op.sub, Op.unsub 0, Op.sub, Op.unsub 1]).detachCount = 2 := by
  decide

/-- C5 (amended): The tracker's listener attachment is exactly
reference-counted: starting from a freshly initialized tracker, the first
subscribe attaches the resize listener, and for every sequence of N ≥ 1
subscribe calls followed by their N corresponding unsubscribe calls in any
order, the listener is detached exactly once (when the count reaches zero),
at most one listener is ever attached at a time (across every operation
sequence, attach events never exceed detach events by more than one),
calling the same disposer a second time is a no-op that neither detaches
again nor throws, and a subsequent subscribe re-attaches exactly once. -/
theorem claim_C5 (ts : List Nat) (w h0 : Nat) (t0 : Tracker) (n : Nat)
    (perm : List Nat) (hinit : initTracker ts w h0 = Except.ok t0) (hn : 1 ≤ n)
    (hperm : perm.Perm (idsFrom 0 n)) :
    (run t0 (List.replicate n Op.sub)).attached = true ∧
    (run t0 (List.replicate n Op.sub)).attachCount = t0.attachCount + 1 ∧
    (run t0 (List.replicate n Op.sub ++ perm.map Op.unsub)).subs = [] ∧
    (run t0 (List.replicate n Op.sub ++ perm.map Op.unsub)).attached = false ∧
    (run t0 (List.replicate n Op.sub ++ perm.map Op.unsub)).detachCount =
      t0.detachCount + 1 ∧
    (run t0 (List.replicate n Op.sub ++ perm.map Op.unsub)).attachCount =
      t0.attachCount + 1 ∧
    (∀ id : Nat,
      unsubscribe (run t0 (List.replicate n Op.sub ++ perm.map Op.unsub)) id =
        run t0 (List.replicate n Op.sub ++ perm.map Op.unsub)) ∧
    (subscribe (run t0 (List.replicate n Op.sub ++ perm.map Op.unsub))).1.attached
      = true ∧
    (subscribe (run t0 (List.replicate n Op.sub ++ perm.map Op.unsub))).1.attachCount
      = t0.attachCount + 2 ∧
    (∀ ops : List Op, (run t0 ops).attachCount ≤ (run t0 ops).detachCount + 1) := by
  have hv : validConfig ts = true := by
    by_contra hvc
    unfold initTracker at hinit
    rw [if_neg hvc] at hinit
    exact Except.noConfusion hinit
  unfold initTracker at hinit
  rw [if_pos hv] at hinit
  have ht0 : t0 =
      { cfg := ts
        viewport := ⟨w, h0⟩
        subs := []
        nextId := 0
        attached := false
        attachCount := 0
        detachCount := 0 } := (Except.ok.inj hinit).symm
  subst ht0
  have h1 : run
      { cfg := ts, viewport := ⟨w, h0⟩, subs := [], nextId := 0,
        attached := false, attachCount := 0, detachCount := 0 : Tracker }
      (List.replicate n Op.sub) =
      { cfg := ts
        viewport := ⟨w, h0⟩
        subs := idsFrom 0 n
        nextId := n
        attached := true
        attachCount := 1
        detachCount := 0 } := by
    rw [run_replicate_sub_of_empty _ n rfl hn]
    simp
  have h2 : run
      { cfg := ts, viewport := ⟨w, h0⟩, subs := [], nextId := 0,
        attached := false, attachCount := 0, detachCount := 0 : Tracker }
      (List.replicate n Op.sub ++ perm.map Op.unsub) =
      { cfg := ts
        viewport := ⟨w, h0⟩
        subs := []
        nextId := n
        attached := false
        attachCount := 1
        detachCount := 1 } := by
    rw [run_append, h1,
      run_unsub_perm perm _ (by simpa using hperm) (by simpa using idsFrom_ne_nil 0 n hn)]
  refine ⟨by rw [h1], by rw [h1], by rw [h2], by rw [h2], by rw [h2], by rw [h2],
    ?_, by rw [h2]; rfl, by rw [h2]; rfl, ?_⟩
  · intro id
    rw [h2]
    exact unsubscribe_of_not_mem _ id (by simp)
  · intro ops
    have hInv : ListenerInv (run
        { cfg := ts, viewport := ⟨w, h0⟩, subs := [], nextId := 0,
          attached := false, attachCount := 0, detachCount := 0 : Tracker } ops) :=
      listenerInv_run ops _ ⟨rfl, rfl⟩
    rw [hInv.2]
    split <;> omega

/-- C5 witness: two subscriptions on a freshly initialized tracker, disposed
in reverse order, detach exactly once; a further subscribe re-attaches. -/
theorem claim_C5_witness :
    (run tracker0 (List.replicate 2 Op.sub ++ [1, 0].map Op.unsub)).detachCount =
      tracker0.detachCount + 1 ∧
    (run tracker0 (List.replicate 2 Op.sub ++ [1, 0].map Op.unsub)).attached = false ∧
    (subscribe (run tracker0 (List.replicate 2 Op.sub ++ [1, 0].map Op.unsub))).1.attached
      = true :=
  have hC5 := claim_C5 defaultThresholds 1024 768 tracker0 2 [1, 0] rfl
    (by decide) (by decide)
  ⟨hC5.2.2.2.2.1, hC5.2.2.2.1, hC5.2.2.2.2.2.2.2.1⟩

/-- C6: When a resize notification delivers dimensions equal to the stored
ViewportState (both width and height unchanged), the tracker leaves all of
its state unchanged and invokes no subscriber callback; subscribers are
notified only when at least one dimension differs. -/
theorem claim_C6 (t : Tracker) (w h : Nat) :
    (w = t.viewport.width → h = t.viewport.height → handleResize t w h = (t, [])) ∧
    ((handleResize t w h).2 ≠ [] →
      w ≠ t.viewport.width ∨ h ≠ t.viewport.height) := by
  constructor
  · intro hw hh
    have hv : t.viewport = ⟨w, h⟩ := by rw [hw, hh]
    unfold handleResize
    rw [if_pos hv]
  · intro hne
    by_contra hcon
    push_neg at hcon
    obtain ⟨hw, hh⟩ := hcon
    have hv : t.viewport = ⟨w, h⟩ := by rw [hw, hh]
    unfold handleResize at hne
    rw [if_pos hv] at hne
    exact hne rfl

/-- C6 witness: delivering the stored 1024×768 sample leaves the tracker
unchanged and notifies nobody; a pass that did notify carried a differing
dimension. -/
theorem claim_C6_witness :
    handleResize tracker0 1024 768 = (tracker0, []) ∧
    (800 ≠ tracker1.viewport.width ∨ 600 ≠ tracker1.viewport.height) :=
  ⟨(claim_C6 tracker0 1024 768).1 rfl rfl,
    (claim_C6 tracker1 800 600).2 (by decide)⟩

/-- C7: Under the trailing-edge throttling policy, a burst of resize
notifications within one throttle window produces at most one notification
pass per delay window, and when the burst's last sample differs from the
stored state that pass is delivered to every subscriber carrying exactly the
last (settled) sample of the burst. -/
theorem claim_C7 (t : Tracker) (burst : List ViewportState) (v : ViewportState) :
    ((processWindow t burst).2 = [] ∨ (processWindow t burst).2 = t.subs) ∧
    (burst.getLast? = some v → v ≠ t.viewport →
      processWindow t burst = ({ t with viewport := v }, t.subs)) := by
  constructor
  · unfold processWindow
    rcases hl : burst.getLast? with _ | u
    · exact Or.inl rfl
    · show (handleResize t u.width u.height).2 = [] ∨
        (handleResize t u.width u.height).2 = t.subs
      unfold handleResize
      by_cases hv : t.viewport = ⟨u.width, u.height⟩
      · rw [if_pos hv]
        exact Or.inl rfl
      · rw [if_neg hv]
        exact Or.inr rfl
  · intro hl hv
    unfold processWindow
    rw [hl]
    show handleResize t v.width v.height = _
    obtain ⟨uw, uh⟩ := v
    unfold handleResize
    rw [if_neg (fun hh => hv hh.symm)]

/-- C7 witness: on a tracker with one subscriber, a burst of 10 notifications
settling at width 800 yields exactly one notification pass — the single
subscriber is notified once, with the stored width updated to 800. -/
theorem claim_C7_witness :
    processWindow tracker1 burst10 =
      ({ tracker1 with viewport := ⟨800, 600⟩ }, tracker1.subs) ∧
    tracker1.subs = [0] ∧
    ({ tracker1 with viewport := ⟨800, 600⟩ } : Tracker).viewport.width = 800 :=
  ⟨(claim_C7 tracker1 burst10 ⟨800, 600⟩).2 (by decide) (by decide),
    by decide, rfl⟩

/-- C8: Initialization with a threshold table that is not strictly ascending,
or that supplies fewer than 7 boundaries, fails fast with a configuration
error; the tracker never proceeds to produce classifications from such a
table (no tracker value is ever constructed). -/
theorem claim_C8 (ts : List Nat) (w h : Nat)
    (hbad : strictlyAscending ts = false ∨ ts.length < 7) :
    initTracker ts w h = Except.error ConfigError.invalidThresholds ∧
    ∀ t : Tracker, initTracker ts w h ≠ Except.ok t := by
  have hv : ¬validConfig ts = true := by
    unfold validConfig
    rcases hbad with hb | hb
    · simp [hb]
    · have h7 : ts.length ≠ 7 := by omega
      simp [h7]
  unfold initTracker
  rw [if_neg hv]
  exact ⟨rfl, fun t hc => Except.noConfusion hc⟩

/-- C8 witness: a 7-entry table that is not strictly ascending is rejected at
initialization with a configuration error. -/
theorem claim_C8_witness :
    initTracker [600, 320, 960, 1280, 1440, 1600, 1920] 1024 768 =
      Except.error ConfigError.invalidThresholds :=
  (claim_C8 [600, 320, 960, 1280, 1440, 1600, 1920] 1024 768 (Or.inl (by decide))).1

/-- C9: The mixin adapter and the composable adapter observe identical state:
when the stateful-attachment adapter's stored fields start out as the shared
tracker's snapshot, then after any trace of viewport samples they equal the
values the pull-based accessor adapter reads from the single shared tracker
(all of windowWidth, windowHeight, windowBreakpoint and the three band
booleans), with no duplicated computation or listeners. -/
theorem claim_C9 (t : Tracker) (m : AdapterView) (trace : List (List ViewportState))
    (hs : t.subs ≠ []) (hm : m = composableRead t) :
    (mixinRun (t, m) trace).2 = composableRead (mixinRun (t, m) trace).1 := by
  subst hm
  exact mixinRun_agrees trace t hs

/-- C9 witness: over a concrete trace (one burst resizing to 800×600, then an
empty window), the mixin-stored fields equal the composable's read of the
shared tracker. -/
theorem claim_C9_witness :
    (mixinRun (tracker1, composableRead tracker1) [[⟨800, 600⟩], []]).2 =
      composableRead (mixinRun (tracker1, composableRead tracker1) [[⟨800, 600⟩], []]).1 :=
  claim_C9 tracker1 (composableRead tracker1) [[⟨800, 600⟩], []] (by decide) rfl

/-- C10: In the documentation page's own component, the mixin-based boxStyle
and the composable-based composableBoxStyle compute the same function of the
is-large flag: whenever this.windowIsLarge equals composableWindowIsLarge's
value, both return display 'inline-block' if the flag is true and display
'block' otherwise, so the two example renderings always agree. -/
theorem claim_C10 (mixinIsLarge composableIsLarge : Bool)
    (h : mixinIsLarge = composableIsLarge) :
    boxStyle mixinIsLarge = composableBoxStyle composableIsLarge ∧
    boxStyle mixinIsLarge =
      (if mixinIsLarge then { display := "inline-block" } else { display := "block" }) ∧
    composableBoxStyle composableIsLarge =
      (if composableIsLarge then { display := "inline-block" } else { display := "block" }) := by
  subst h
  cases mixinIsLarge <;> exact ⟨rfl, rfl, rfl⟩

/-- C10 witness: the two stylings agree at both values of the flag. -/
theorem claim_C10_witness :
    boxStyle true = composableBoxStyle true ∧
    boxStyle false = composableBoxStyle false :=
  ⟨(claim_C10 true true rfl).1, (claim_C10 false false rfl).1⟩

end KResponsive
